import Mathlib

/-!
Verification of the playback core of the simple-media-player repository.

The definitions below are shallow embeddings of the Python sources:
  src/core/player.py        class MediaPlayer
  src/core/audio_player.py  class AudioPlayer
Wall-clock reads (time.time(), pygame.mixer.music.get_pos()) are passed in
as explicit parameters; float arithmetic is modelled over the rationals.
-/

namespace SimpleMediaPlayer

/-- Python int() truncates toward zero; this is the embedding used wherever
the source applies int() to a float value. -/
def pyInt (q : ℚ) : ℤ :=
  if 0 ≤ q then ⌊q⌋ else -⌊-q⌋

/-- Python truthiness of an optional integer field (None and 0 are falsy),
as used by the duration fallbacks in MediaPlayer.load_file. -/
def truthy : Option ℤ → Bool
  | none => false
  | some d => d != 0

/-! ## Playback Scheduler frame pacing (src/core/player.py lines 371-389) -/

/-- The action the pacing branch of MediaPlayer playback loop takes for one
decoded frame: sleep the given duration and then emit the frame, skip the
frame via continue, or emit it immediately. -/
inductive SchedAction where
  | sleepThenDeliver (duration : ℚ)
  | dropFrame
  | deliverNow
deriving DecidableEq, Repr

/-- Embedding of the per-frame pacing decision (player.py lines 378-385):
time_diff = frame_pts - time_pos; if time_diff > 0.001 the loop sleeps
min(time_diff / playback_speed, 0.1) and falls through to the emit; if
time_diff < -0.5 the frame is skipped; otherwise it is emitted at once. -/
def scheduleFrame (time_diff playback_speed : ℚ) : SchedAction :=
  if time_diff > 1/1000 then
    .sleepThenDeliver (min (time_diff / playback_speed) (1/10))
  else if time_diff < -(1/2) then
    .dropFrame
  else
    .deliverNow

/-- Embedding of MediaPlayer.set_speed clamping (player.py line 265):
speed is clamped to the interval from 0.1 to 4.0. -/
def set_speed_clamp (speed : ℚ) : ℚ :=
  max (1/10) (min speed 4)

/-- Conversion of a raw frame pts to seconds (player.py line 371); Python
truthiness makes both a missing pts and a zero pts map to 0. -/
def framePts (pts : Option ℤ) (time_base : ℚ) : ℚ :=
  match pts with
  | some p => if p != 0 then (p : ℚ) * time_base else 0
  | none => 0

/-! ## Cancellation checks of the playback loop (player.py lines 350-389)

The stop flag and the playing flag are shared mutable state read at a few
fixed points of the loop; an execution is modelled by recording the value
each such read returns (and, for the point the code does NOT read, the value
the flag holds there, so that the property can be stated). -/

/-- Flag values relevant to one iteration of the outer packet loop:
the reads at the top-of-loop check (line 352) and after the pause wait
(line 359). -/
structure PacketFlags where
  stop_at_packet : Bool
  playing_at_packet : Bool
  stop_after_pause_wait : Bool
deriving DecidableEq, Repr

/-- Outcome of the packet-level gates before any decoding happens. -/
inductive PacketGate where
  | brokeOut
  | proceedToDecode
deriving DecidableEq, Repr

/-- Embedding of the packet-level checks (lines 351-360): break when the
stop flag is set or playing is cleared; after the pause-wait loop exits,
break again when the stop flag is set. -/
def packetGate (p : PacketFlags) : PacketGate :=
  if p.stop_at_packet || !p.playing_at_packet then .brokeOut
  else if p.stop_after_pause_wait then .brokeOut
  else .proceedToDecode

/-- Flag values relevant to one decoded frame: the read at the
top-of-frame-loop check (line 364), and the value the stop flag holds right
after the pacing sleep of line 380 (a point at which the code performs no
read). -/
structure FrameFlags where
  stop_at_check : Bool
  playing_at_check : Bool
  stop_after_sleep : Bool
deriving DecidableEq, Repr

/-- Outcome of processing one decoded frame. -/
inductive FrameResult where
  | brokeOut
  | dropped
  | delivered
deriving DecidableEq, Repr

/-- Embedding of the per-frame body (lines 364-385): break out when the
stop flag is set or playing is cleared at the frame check; then the pacing
branch of scheduleFrame runs, and in the sleep branch the frame is emitted
directly after the sleep, without reading the stop flag again. -/
def frameBody (f : FrameFlags) (time_diff speed : ℚ) : FrameResult :=
  if f.stop_at_check || !f.playing_at_check then .brokeOut
  else
    match scheduleFrame time_diff speed with
    | .sleepThenDeliver _ => .delivered
    | .dropFrame => .dropped
    | .deliverNow => .delivered

/-! ## AudioPlayer (src/core/audio_player.py)

The tracked fields are the instance attributes of the class plus `gain`,
the value most recently passed to pygame.mixer.music.set_volume (the
effective gain handed to the audio device). The pygame device itself
(busy flag, playback cursor) is external; where a method reads the device
cursor (pygame.mixer.music.get_pos) the read value is an explicit
parameter. -/

structure AudioState where
  volume : ℤ
  is_muted : Bool
  gain : ℚ
  is_loaded : Bool
  start_position : ℚ
  pause_position : ℚ
deriving DecidableEq, Repr

/-- Effective gain written to the device by AudioPlayer set_pygame_volume
(audio_player.py lines 278-284): 0 when muted, volume / 100 otherwise. -/
def effectiveGain (volume : ℤ) (muted : Bool) : ℚ :=
  if muted then 0 else (volume : ℚ) / 100

namespace AudioPlayer

/-- Fields of AudioPlayer.__init__ (lines 28-44); pygame starts with device
gain 1.0, consistent with volume 100 unmuted. -/
def initState : AudioState :=
  { volume := 100, is_muted := false, gain := 1, is_loaded := false,
    start_position := 0, pause_position := 0 }

/-- AudioPlayer._set_pygame_volume (lines 278-284). -/
def set_pygame_volume (a : AudioState) : AudioState :=
  { a with gain := effectiveGain a.volume a.is_muted }

/-- AudioPlayer.set_volume (lines 267-276): clamp to 0-100 and apply. -/
def set_volume (a : AudioState) (volume : ℤ) : AudioState :=
  set_pygame_volume { a with volume := max 0 (min 100 volume) }

/-- AudioPlayer.set_muted (lines 286-295): store the flag and apply. -/
def set_muted (a : AudioState) (muted : Bool) : AudioState :=
  set_pygame_volume { a with is_muted := muted }

/-- AudioPlayer.toggle_mute (lines 297-299). -/
def toggle_mute (a : AudioState) : AudioState :=
  set_muted a (!a.is_muted)

/-- AudioPlayer.stop (lines 224-236): a no-op unless loaded; stops the
device and zeroes both tracked positions. -/
def stop (a : AudioState) : AudioState :=
  if !a.is_loaded then a
  else { a with start_position := 0, pause_position := 0 }

/-- AudioPlayer.position (lines 315-337), with the value returned by
pygame.mixer.music.get_pos passed in as device_pos (milliseconds, negative
when no segment is active). -/
def position (a : AudioState) (device_pos : ℤ) : ℤ :=
  if !a.is_loaded then 0
  else if 0 ≤ device_pos then pyInt (a.start_position * 1000 + (device_pos : ℚ))
  else pyInt (a.pause_position * 1000)

/-- AudioPlayer.play (lines 185-208): unpauses or restarts the pygame
device; none of the tracked instance attributes are written. -/
def play (a : AudioState) : AudioState :=
  a

/-- AudioPlayer.pause (lines 210-222): a no-op unless loaded; captures the
current device position (converted to seconds) into pause_position. -/
def pause (a : AudioState) (device_pos : ℤ) : AudioState :=
  if !a.is_loaded then a
  else { a with pause_position := (position a device_pos : ℚ) / 1000 }

/-- AudioPlayer.seek (lines 238-265): a no-op unless loaded; stores the
target (milliseconds, converted to seconds) into both positions and
restarts the device segment if it was playing. -/
def seek (a : AudioState) (position_ms : ℤ) : AudioState :=
  if !a.is_loaded then a
  else { a with start_position := (position_ms : ℚ) / 1000,
                pause_position := (position_ms : ℚ) / 1000 }

/-- AudioPlayer.load (lines 46-96): stops current playback, then attempts a
direct pygame load with an extraction fallback; whether either succeeds
depends on the codec and device and is passed in as ok. Both success paths
set the loaded flag, zero the positions and apply the stored volume; the
failure paths clear the loaded flag. -/
def load (a : AudioState) (ok : Bool) : AudioState × Bool :=
  let a1 := stop a
  if ok then
    (set_pygame_volume { a1 with is_loaded := true, start_position := 0,
                                 pause_position := 0 }, true)
  else
    ({ a1 with is_loaded := false }, false)

end AudioPlayer

/-! ## MediaPlayer (src/core/player.py)

One structure field per instance attribute of the class; wall-clock reads
(time.time()) are explicit parameters named now. The av container handle is
modelled by the stream metadata the code reads plus the last position the
code seeked the container to. -/

/-- The fields of an av video stream that MediaPlayer reads: truthiness of
codec_context, time_base, and the optional raw duration. -/
structure VideoStream where
  codec_context : Bool
  time_base : ℚ
  duration : Option ℤ
deriving DecidableEq, Repr

/-- An open av input container: its video streams, its optional duration
(in units of av.time_base) and the last position it was seeked to. -/
structure InputContainer where
  video_streams : List VideoStream
  duration : Option ℤ
  position : ℤ
deriving DecidableEq, Repr

/-- PyAV constant av.time_base = 1000000 (microseconds). -/
def avTimeBase : ℚ := 1000000

/-- The stream-selection loop of MediaPlayer.load_file (lines 110-114):
the first video stream whose codec_context is truthy. -/
def selectVideoStream (c : InputContainer) : Option VideoStream :=
  c.video_streams.find? (fun st => st.codec_context)

/-- The duration computation of MediaPlayer.load_file (lines 123-129):
stream duration times time base when the stream duration is truthy, else
container duration over av.time_base when that is truthy, else 0. -/
def computeDuration (st : VideoStream) (c : InputContainer) : ℚ :=
  if truthy st.duration then (st.duration.getD 0 : ℚ) * st.time_base
  else if truthy c.duration then (c.duration.getD 0 : ℚ) / avTimeBase
  else 0

/-- The instance attributes of MediaPlayer. -/
structure PlayerState where
  container : Option InputContainer
  video_stream : Option VideoStream
  current_file : Option String
  is_playing : Bool
  is_paused : Bool
  stop_flag : Bool
  current_pts : ℤ
  video_time_base : ℚ
  start_time : ℚ
  pause_time : ℚ
  volume : ℤ
  playback_speed : ℚ
  duration : ℚ
  audio : AudioState
deriving DecidableEq, Repr

/-- Outcome of Path(filepath).exists() plus av.open(filepath) when
MediaPlayer.load_file runs: missing file, an exception from av.open, or a
successfully opened container. -/
inductive OpenOutcome where
  | notFound
  | openRaises
  | opened (c : InputContainer)
deriving DecidableEq, Repr

namespace MediaPlayer

/-- MediaPlayer.__init__ (lines 38-71). -/
def initState : PlayerState :=
  { container := none, video_stream := none, current_file := none,
    is_playing := false, is_paused := true, stop_flag := false,
    current_pts := 0, video_time_base := 1, start_time := 0, pause_time := 0,
    volume := 100, playback_speed := 1, duration := 0,
    audio := AudioPlayer.initState }

/-- MediaPlayer.time_pos (lines 305-312): wall time minus start time while
actively playing, the frozen pause time while paused, else 0. -/
def time_pos (s : PlayerState) (now : ℚ) : ℚ :=
  if s.is_playing && !s.is_paused then now - s.start_time
  else if s.is_paused then s.pause_time
  else 0

/-- MediaPlayer.play (lines 151-177): a no-op without a container;
otherwise clears the pause flag, starts audio, and either starts the
playback thread fresh (recording the clock origin) or, when the thread is
already running, rewrites the clock origin from the held pause time. -/
def play (s : PlayerState) (now : ℚ) : PlayerState :=
  match s.container with
  | none => s
  | some _ =>
    let s1 := { s with is_paused := false, audio := AudioPlayer.play s.audio }
    if !s1.is_playing then
      { s1 with is_playing := true, stop_flag := false, start_time := now }
    else
      { s1 with start_time := now - s1.pause_time }

/-- MediaPlayer.pause (lines 179-185): when not already paused, freezes the
elapsed time into pause_time and pauses audio. -/
def pause (s : PlayerState) (now : ℚ) (device_pos : ℤ) : PlayerState :=
  if !s.is_paused then
    { s with is_paused := true, pause_time := now - s.start_time,
             audio := AudioPlayer.pause s.audio device_pos }
  else s

/-- MediaPlayer.stop (lines 194-215): clears the playing flag, sets the
pause flag and the stop flag, stops audio, joins the playback thread, and
seeks the container (when present) back to 0, zeroing current_pts. -/
def stop (s : PlayerState) : PlayerState :=
  let s1 := { s with is_playing := false, is_paused := true, stop_flag := true,
                     audio := AudioPlayer.stop s.audio }
  match s1.container with
  | none => s1
  | some c => { s1 with container := some { c with position := 0 }, current_pts := 0 }

/-- MediaPlayer.seek (lines 217-256): a no-op without a container;
otherwise clamps the target to the valid range, converts it to the stream
time base with int() truncation, seeks the container and the audio sink,
and rewrites the clock origin only when not paused. -/
def seek (s : PlayerState) (now : ℚ) (seconds : ℚ) (relative : Bool) : PlayerState :=
  match s.container with
  | none => s
  | some c =>
    let target0 := if relative then time_pos s now + seconds else seconds
    let target := max 0 (min target0 s.duration)
    let target_pts := pyInt (target / s.video_time_base)
    { s with container := some { c with position := target_pts },
             current_pts := target_pts,
             audio := AudioPlayer.seek s.audio (pyInt (target * 1000)),
             start_time := if !s.is_paused then now - target else s.start_time }

/-- MediaPlayer.set_speed (lines 258-267): clamp and store the speed (the
audio rate call is a logged no-op in AudioPlayer.set_playback_rate). -/
def set_speed (s : PlayerState) (speed : ℚ) : PlayerState :=
  { s with playback_speed := set_speed_clamp speed }

/-- MediaPlayer.load_file (lines 87-149): stops current playback first;
returns False on a missing file or an av.open exception, leaving the
previous container in place; on an opened container, installs it and the
first valid video stream, returning False if there is none; otherwise
computes time base and duration, loads audio (failure is non-fatal),
reapplies the stored volume, and records the file with current_pts 0. -/
def load_file (s : PlayerState) (filepath : String) (oc : OpenOutcome)
    (audio_ok : Bool) : PlayerState × Bool :=
  let s1 := stop s
  match oc with
  | .notFound => (s1, false)
  | .openRaises => (s1, false)
  | .opened c =>
    let s2 := { s1 with container := some c, video_stream := selectVideoStream c }
    match selectVideoStream c with
    | none => (s2, false)
    | some st =>
      let dur := computeDuration st c
      let a1 := (AudioPlayer.load s2.audio audio_ok).1
      let a2 := AudioPlayer.set_volume a1 s2.volume
      ({ s2 with video_time_base := st.time_base, duration := dur,
                 audio := a2, current_file := some filepath,
                 current_pts := 0 }, true)

end MediaPlayer

/-- A concrete reachable audio state: loaded, volume 30, muted (the state
AudioPlayer.set_muted true produces from a loaded state at volume 30). -/
def audioMuted30 : AudioState :=
  AudioPlayer.set_muted
    (AudioPlayer.set_volume (AudioPlayer.load AudioPlayer.initState true).1 30) true

/-- A concrete video stream: valid codec context, time base 1/1000 and raw
duration 100000, so 100 seconds. -/
def streamA : VideoStream :=
  { codec_context := true, time_base := 1/1000, duration := some 100000 }

/-- A concrete container holding streamA. -/
def containerA : InputContainer :=
  { video_streams := [streamA], duration := some 100000000, position := 0 }

/-- A container with no video streams at all (an audio-only file). -/
def containerNoVideo : InputContainer :=
  { video_streams := [], duration := some 42000000, position := 0 }

/-- The player right after successfully loading containerA. -/
def loadedState : PlayerState :=
  (MediaPlayer.load_file MediaPlayer.initState "a.mp4" (.opened containerA) true).1

/-- The player playing from the start: play was called at wall time 0. -/
def playingState : PlayerState :=
  MediaPlayer.play loadedState 0

/-- The player paused at wall time 5, so at reported position 5. -/
def pausedAt5 : PlayerState :=
  MediaPlayer.pause playingState 5 4000

/-- The paused player after seek(2.0), issued at wall time 6. -/
def seekedTo2 : PlayerState :=
  MediaPlayer.seek pausedAt5 6 2 false

end SimpleMediaPlayer

namespace SimpleMediaPlayer

/-- Any speed that has passed through set_speed clamping is positive. -/
theorem set_speed_clamp_pos (speed : ℚ) : 0 < set_speed_clamp speed := by
  unfold set_speed_clamp
  have h : (0:ℚ) < 1/10 := by norm_num
  exact lt_of_lt_of_le h (le_max_left _ _)

/-- C1: for every decoded frame, with delta the frame pts minus the clock
time and speed the current multiplier: delta > 0.001 makes the scheduler
sleep min(delta / speed, 0.1) and then deliver; delta < -0.5 makes it drop
the frame; otherwise it delivers immediately; and a sleep duration is never
negative (indeed strictly positive) whenever the speed is positive. -/
theorem C1_frame_pacing (delta speed : ℚ) (hs : 0 < speed) :
    (delta > 1/1000 →
      scheduleFrame delta speed = .sleepThenDeliver (min (delta / speed) (1/10))) ∧
    (delta < -(1/2) → scheduleFrame delta speed = .dropFrame) ∧
    (delta ≤ 1/1000 → -(1/2) ≤ delta → scheduleFrame delta speed = .deliverNow) ∧
    (∀ d, scheduleFrame delta speed = .sleepThenDeliver d → 0 < d) := by
  refine ⟨?_, ?_, ?_, ?_⟩
  · intro h
    unfold scheduleFrame
    rw [if_pos h]
  · intro h
    unfold scheduleFrame
    rw [if_neg (show ¬ delta > 1/1000 by linarith), if_pos h]
  · intro h1 h2
    unfold scheduleFrame
    rw [if_neg (not_lt.mpr h1), if_neg (not_lt.mpr h2)]
  · intro d hd
    unfold scheduleFrame at hd
    by_cases h : delta > 1/1000
    · rw [if_pos h] at hd
      injection hd with he
      rw [← he]
      have hdpos : 0 < delta := lt_trans (by norm_num) h
      exact lt_min (div_pos hdpos hs) (by norm_num)
    · rw [if_neg h] at hd
      by_cases h2 : delta < -(1/2)
      · rw [if_pos h2] at hd
        exact absurd hd (by simp)
      · rw [if_neg h2] at hd
        exact absurd hd (by simp)

/-- Witness for C1 at delta = 1, speed = 2 (sleep branch, duration 1/10),
delta = -1 (drop branch) and delta = 0 (immediate branch). -/
theorem C1_frame_pacing_witness :
    scheduleFrame 1 2 = SchedAction.sleepThenDeliver (1/10) ∧
    scheduleFrame (-1) 2 = SchedAction.dropFrame ∧
    scheduleFrame 0 2 = SchedAction.deliverNow ∧
    (0:ℚ) < 1/10 := by
  have hs : (0:ℚ) < 2 := by norm_num
  refine ⟨?_, ?_, ?_, by norm_num⟩
  · have h := (C1_frame_pacing 1 2 hs).1 (by norm_num)
    have hmin : min ((1:ℚ) / 2) (1/10) = 1/10 := by norm_num
    rw [h, hmin]
  · exact (C1_frame_pacing (-1) 2 hs).2.1 (by norm_num)
  · exact (C1_frame_pacing 0 2 hs).2.2.1 (by norm_num) (by norm_num)

/-- C6, counterexample: the claim states that a frame is never delivered
after a pacing sleep during which the stop flag was set. Concretely, take a
frame iteration in which the flag is clear at the top-of-frame check, the
frame is 1 s early (time_diff = 1 > 0.001, so the loop sleeps), and the
stop flag is set during that sleep (stop_after_sleep = true): the code
still delivers the frame, because it never re-reads the flag between the
sleep and the emit. -/
theorem C6_counterexample :
    frameBody
      { stop_at_check := false, playing_at_check := true, stop_after_sleep := true }
      1 1 = FrameResult.delivered ∧
    (1:ℚ) > 1/1000 := by
  constructor
  · norm_num [frameBody, scheduleFrame]
  · norm_num

/-- C6, amended: the loop checks the cancellation flag before pulling each
packet, again when the pause wait exits, and before processing each decoded
frame, and each of those checks stops the iteration; but the flag is NOT
re-read between the pacing sleep and frame delivery, so the outcome of a
frame iteration is independent of the value the stop flag takes during the
sleep (one already-decoded early frame can still be delivered after stop). -/
theorem C6_amended_cancellation :
    (∀ p : PacketFlags, p.stop_at_packet = true → packetGate p = .brokeOut) ∧
    (∀ p : PacketFlags, p.stop_after_pause_wait = true → packetGate p = .brokeOut) ∧
    (∀ (f : FrameFlags) (d sp : ℚ), f.stop_at_check = true →
      frameBody f d sp = .brokeOut) ∧
    (∀ (f : FrameFlags) (d sp : ℚ) (b : Bool),
      frameBody f d sp = frameBody { f with stop_after_sleep := b } d sp) := by
  refine ⟨?_, ?_, ?_, ?_⟩
  · intro p hp
    simp [packetGate, hp]
  · intro p hp
    unfold packetGate
    by_cases h : p.stop_at_packet || !p.playing_at_packet <;> simp [h, hp]
  · intro f d sp hf
    simp [frameBody, hf]
  · intro f d sp b
    simp [frameBody]

/-- Witness for C6 amended, at concrete flag records: a set stop flag at the
packet check breaks out; a flag set during the pause wait breaks out; a set
flag at the frame check breaks out; and the frame outcome does not change
when the flag value after the sleep flips from false to true. -/
theorem C6_amended_cancellation_witness :
    packetGate { stop_at_packet := true, playing_at_packet := true,
                 stop_after_pause_wait := false } = PacketGate.brokeOut ∧
    packetGate { stop_at_packet := false, playing_at_packet := true,
                 stop_after_pause_wait := true } = PacketGate.brokeOut ∧
    frameBody { stop_at_check := true, playing_at_check := true,
                stop_after_sleep := false } 1 1 = FrameResult.brokeOut ∧
    frameBody { stop_at_check := false, playing_at_check := true,
                stop_after_sleep := false } 1 1 =
      frameBody { stop_at_check := false, playing_at_check := true,
                  stop_after_sleep := true } 1 1 := by
  refine ⟨?_, ?_, ?_, ?_⟩
  · exact C6_amended_cancellation.1 _ rfl
  · exact C6_amended_cancellation.2.1 _ rfl
  · exact C6_amended_cancellation.2.2.1 _ 1 1 rfl
  · exact C6_amended_cancellation.2.2.2
      { stop_at_check := false, playing_at_check := true, stop_after_sleep := false }
      1 1 true

/-- C8: for an audio state whose device gain reflects the stored settings
(true of every state the AudioPlayer methods produce) with stored volume in
0-100 and the mute flag set: the effective gain is 0; calling set_volume
with any value leaves the gain at 0 while updating the stored (clamped)
volume; and set_muted false restores the gain to volume / 100 without the
volume being resent. -/
theorem C8_mute_gain (a : AudioState) (w : ℤ)
    (hg : a.gain = effectiveGain a.volume a.is_muted)
    (_hv : 0 ≤ a.volume ∧ a.volume ≤ 100)
    (hm : a.is_muted = true) :
    a.gain = 0 ∧
    (AudioPlayer.set_volume a w).gain = 0 ∧
    (AudioPlayer.set_volume a w).volume = max 0 (min 100 w) ∧
    (AudioPlayer.set_muted a false).gain = (a.volume : ℚ) / 100 ∧
    (AudioPlayer.set_muted a false).volume = a.volume := by
  refine ⟨?_, ?_, ?_, ?_, ?_⟩
  · rw [hg, hm]
    simp [effectiveGain]
  · simp [AudioPlayer.set_volume, AudioPlayer.set_pygame_volume, effectiveGain, hm]
  · simp [AudioPlayer.set_volume, AudioPlayer.set_pygame_volume]
  · simp [AudioPlayer.set_muted, AudioPlayer.set_pygame_volume, effectiveGain]
  · simp [AudioPlayer.set_muted, AudioPlayer.set_pygame_volume]

/-- Witness for C8 at a muted state with stored volume 30: the gain is 0,
stays 0 under set_volume 80 (stored volume becomes 80), and unmuting
restores gain 3/10. -/
theorem C8_mute_gain_witness :
    (audioMuted30.gain = 0 ∧
     (AudioPlayer.set_volume audioMuted30 80).gain = 0 ∧
     (AudioPlayer.set_volume audioMuted30 80).volume = max 0 (min 100 80) ∧
     (AudioPlayer.set_muted audioMuted30 false).gain = ((30 : ℤ) : ℚ) / 100 ∧
     (AudioPlayer.set_muted audioMuted30 false).volume = 30) := by
  have h := C8_mute_gain audioMuted30 80
    (by simp [audioMuted30, AudioPlayer.set_muted, AudioPlayer.set_volume,
          AudioPlayer.set_pygame_volume, AudioPlayer.load, AudioPlayer.stop,
          AudioPlayer.initState, effectiveGain])
    (by simp [audioMuted30, AudioPlayer.set_muted, AudioPlayer.set_volume,
          AudioPlayer.set_pygame_volume, AudioPlayer.load, AudioPlayer.stop,
          AudioPlayer.initState])
    (by simp [audioMuted30, AudioPlayer.set_muted, AudioPlayer.set_pygame_volume])
  simpa [audioMuted30] using h

/-- C9: toggling mute twice is the identity on the observable audio state:
for any state whose gain reflects the stored settings (true of every state
the AudioPlayer methods produce), the double toggle returns the whole state
to its original value, and the stored volume is untouched by each call. -/
theorem C9_toggle_mute_involution (a : AudioState)
    (hg : a.gain = effectiveGain a.volume a.is_muted) :
    AudioPlayer.toggle_mute (AudioPlayer.toggle_mute a) = a ∧
    (AudioPlayer.toggle_mute a).volume = a.volume ∧
    (AudioPlayer.toggle_mute (AudioPlayer.toggle_mute a)).is_muted = a.is_muted ∧
    (AudioPlayer.toggle_mute (AudioPlayer.toggle_mute a)).gain = a.gain := by
  have hmain : AudioPlayer.toggle_mute (AudioPlayer.toggle_mute a) = a := by
    simp only [AudioPlayer.toggle_mute, AudioPlayer.set_muted,
      AudioPlayer.set_pygame_volume, Bool.not_not]
    rw [← hg]
  refine ⟨hmain, ?_, ?_, ?_⟩
  · simp [AudioPlayer.toggle_mute, AudioPlayer.set_muted, AudioPlayer.set_pygame_volume]
  · rw [hmain]
  · rw [hmain]


/-- C10: with no media loaded (container is None), play and seek return at
once without touching any field of the player state. -/
theorem C10_no_media_noop (s : PlayerState) (now secs : ℚ) (rel : Bool)
    (h : s.container = none) :
    MediaPlayer.play s now = s ∧ MediaPlayer.seek s now secs rel = s := by
  constructor
  · simp [MediaPlayer.play, h]
  · simp [MediaPlayer.seek, h]

/-- Witness for C10 at the freshly constructed player. -/
theorem C10_no_media_noop_witness :
    MediaPlayer.play MediaPlayer.initState 3 = MediaPlayer.initState ∧
    MediaPlayer.seek MediaPlayer.initState 3 10 false = MediaPlayer.initState :=
  C10_no_media_noop MediaPlayer.initState 3 10 false rfl

/-- C7: on a successful load the selected video stream is the find-first
result over the container video streams (so it has a truthy codec
context), and the reported duration is stream duration times time base
when the stream duration is truthy, else container duration over
av.time_base when that is truthy, else 0 (Python truthiness: a missing or
zero raw duration counts as lacking one). -/
theorem C7_duration (s : PlayerState) (fp : String) (aok : Bool)
    (c : InputContainer) (st : VideoStream)
    (hsel : selectVideoStream c = some st) :
    (MediaPlayer.load_file s fp (.opened c) aok).2 = true ∧
    (MediaPlayer.load_file s fp (.opened c) aok).1.video_stream = some st ∧
    st.codec_context = true ∧
    (MediaPlayer.load_file s fp (.opened c) aok).1.duration = computeDuration st c ∧
    (truthy st.duration = true →
      computeDuration st c = (st.duration.getD 0 : ℚ) * st.time_base) ∧
    (truthy st.duration = false → truthy c.duration = true →
      computeDuration st c = (c.duration.getD 0 : ℚ) / avTimeBase) ∧
    (truthy st.duration = false → truthy c.duration = false →
      computeDuration st c = 0) := by
  have hcc : st.codec_context = true := by
    have h := List.find?_some hsel
    simpa using h
  refine ⟨?_, ?_, hcc, ?_, ?_, ?_, ?_⟩
  · simp [MediaPlayer.load_file, hsel]
  · simp [MediaPlayer.load_file, hsel]
  · simp [MediaPlayer.load_file, hsel]
  · intro h
    simp [computeDuration, h]
  · intro h1 h2
    simp [computeDuration, h1, h2]
  · intro h1 h2
    simp [computeDuration, h1, h2]

/-- Witness for C7: loading containerA succeeds and reports duration
100000 * 1/1000 = 100 seconds from streamA. -/
theorem C7_duration_witness :
    (MediaPlayer.load_file MediaPlayer.initState "a.mp4" (.opened containerA) true).2 = true ∧
    (MediaPlayer.load_file MediaPlayer.initState "a.mp4" (.opened containerA) true).1.duration = 100 ∧
    selectVideoStream containerA = some streamA := by
  have h := C7_duration MediaPlayer.initState "a.mp4" true containerA streamA rfl
  refine ⟨h.1, ?_, rfl⟩
  have hd := h.2.2.2.1
  have ht := h.2.2.2.2.1 rfl
  rw [hd, ht]
  simp [streamA]
  norm_num

/-- C2: the claim asserts that in every playback state, Paused included,
time_pos reads the seek target immediately after seek returns. Evaluating
the code on a player paused at reported position 5: seek(2.0) leaves
time_pos at 5, because seek only rewrites the clock origin when not paused
and never updates the held pause_time (while the audio sink in the same
call does update its pause position). -/
theorem C2_seek_while_paused_eval :
    MediaPlayer.time_pos pausedAt5 6 = 5 ∧
    MediaPlayer.time_pos seekedTo2 6 = 5 ∧
    MediaPlayer.time_pos seekedTo2 6 ≠ 2 ∧
    seekedTo2.is_paused = true ∧
    seekedTo2.audio.pause_position = 2 := by
  refine ⟨?_, ?_, ?_, ?_, ?_⟩ <;>
    norm_num [seekedTo2, pausedAt5, playingState, loadedState, containerA, streamA,
      MediaPlayer.seek, MediaPlayer.pause, MediaPlayer.play, MediaPlayer.load_file,
      MediaPlayer.stop, MediaPlayer.initState, MediaPlayer.time_pos,
      AudioPlayer.seek, AudioPlayer.pause, AudioPlayer.play, AudioPlayer.stop,
      AudioPlayer.load, AudioPlayer.set_volume, AudioPlayer.set_pygame_volume,
      AudioPlayer.position, AudioPlayer.initState, selectVideoStream,
      computeDuration, effectiveGain, truthy, avTimeBase, pyInt]

/-- C3: the claim asserts time_pos = 0 after stop() in every reachable
state. Evaluating the code on a player that was paused at reported
position 5 and then sought to 2: stop() does seek the container back to 0
(so a later play() decodes from the start, on a fresh thread with a fresh
clock origin), but time_pos still reads the stale held pause_time 5,
because stop() never resets it while the state stays paused. -/
theorem C3_stop_eval :
    MediaPlayer.time_pos (MediaPlayer.stop seekedTo2) 7 = 5 ∧
    MediaPlayer.time_pos (MediaPlayer.stop seekedTo2) 7 ≠ 0 ∧
    seekedTo2.container = some { containerA with position := 2000 } ∧
    (MediaPlayer.stop seekedTo2).container = some { containerA with position := 0 } ∧
    (MediaPlayer.stop seekedTo2).current_pts = 0 ∧
    (MediaPlayer.play (MediaPlayer.stop seekedTo2) 9).is_playing = true ∧
    (MediaPlayer.play (MediaPlayer.stop seekedTo2) 9).start_time = 9 := by
  refine ⟨?_, ?_, ?_, ?_, ?_, ?_, ?_⟩ <;>
    norm_num [seekedTo2, pausedAt5, playingState, loadedState, containerA, streamA,
      MediaPlayer.seek, MediaPlayer.pause, MediaPlayer.play, MediaPlayer.load_file,
      MediaPlayer.stop, MediaPlayer.initState, MediaPlayer.time_pos,
      AudioPlayer.seek, AudioPlayer.pause, AudioPlayer.play, AudioPlayer.stop,
      AudioPlayer.load, AudioPlayer.set_volume, AudioPlayer.set_pygame_volume,
      AudioPlayer.position, AudioPlayer.initState, selectVideoStream,
      computeDuration, effectiveGain, truthy, avTimeBase, pyInt]

/-- C4: the claim asserts that play() while already Playing is a no-op on
position and clock origin. Evaluating the code on a player that started
playing at wall time 0 and was never paused: a second play() at wall time
5 takes the resume branch (guarded only by the thread-running flag, not by
the pause flag), rewriting start_time from 0 to 5 - pause_time = 5, which
resets the reported position from 5 to 0. -/
theorem C4_play_while_playing_eval :
    playingState.is_playing = true ∧
    playingState.is_paused = false ∧
    playingState.start_time = 0 ∧
    MediaPlayer.time_pos playingState 5 = 5 ∧
    (MediaPlayer.play playingState 5).start_time = 5 ∧
    MediaPlayer.time_pos (MediaPlayer.play playingState 5) 5 = 0 := by
  refine ⟨?_, ?_, ?_, ?_, ?_, ?_⟩ <;>
    norm_num [playingState, loadedState, containerA, streamA,
      MediaPlayer.pause, MediaPlayer.play, MediaPlayer.load_file,
      MediaPlayer.stop, MediaPlayer.initState, MediaPlayer.time_pos,
      AudioPlayer.play, AudioPlayer.stop, AudioPlayer.load,
      AudioPlayer.set_volume, AudioPlayer.set_pygame_volume,
      AudioPlayer.initState, selectVideoStream, computeDuration,
      effectiveGain, truthy, avTimeBase]

/-- C5, counterexample: the claim asserts every failing load leaves the
previously loaded container and video stream untouched. Loading an
audio-only file (container with no video stream) over a player that holds
containerA: load_file returns False yet has replaced the container with
the new one and cleared the video stream selection. -/
theorem C5_counterexample :
    (MediaPlayer.load_file playingState "b.m4a" (.opened containerNoVideo) true).2 = false ∧
    playingState.container = some containerA ∧
    playingState.video_stream = some streamA ∧
    (MediaPlayer.load_file playingState "b.m4a" (.opened containerNoVideo) true).1.container =
      some containerNoVideo ∧
    some containerNoVideo ≠ (some containerA : Option InputContainer) ∧
    (MediaPlayer.load_file playingState "b.m4a" (.opened containerNoVideo) true).1.video_stream =
      none := by
  refine ⟨?_, ?_, ?_, ?_, ?_, ?_⟩ <;>
    norm_num [playingState, loadedState, containerA, containerNoVideo, streamA,
      MediaPlayer.play, MediaPlayer.load_file, MediaPlayer.stop,
      MediaPlayer.initState, AudioPlayer.play, AudioPlayer.stop,
      AudioPlayer.load, AudioPlayer.set_volume, AudioPlayer.set_pygame_volume,
      AudioPlayer.initState, selectVideoStream, computeDuration,
      effectiveGain, truthy, avTimeBase]

/-- C5, amended: a failing load_file returns False and leaves duration and
time base untouched; the implicit stop() only resets the container
position; on a missing file or an av.open error the previous container and
video stream selection survive, but when a container opens without any
decodable video stream it replaces the previous container and clears the
video stream selection; in every case the player stays usable, and a
subsequent load of a good container succeeds. -/
theorem C5_amended_load_failure (s : PlayerState) (fp fp2 : String)
    (aok aok2 : Bool) (oc : OpenOutcome) (c2 : InputContainer) (st2 : VideoStream)
    (hfail : match oc with
      | .notFound => True
      | .openRaises => True
      | .opened c => selectVideoStream c = none)
    (hgood : selectVideoStream c2 = some st2) :
    (MediaPlayer.load_file s fp oc aok).2 = false ∧
    (MediaPlayer.load_file s fp oc aok).1.duration = s.duration ∧
    (MediaPlayer.load_file s fp oc aok).1.video_time_base = s.video_time_base ∧
    (match oc with
      | .opened c =>
          (MediaPlayer.load_file s fp oc aok).1.container = some c ∧
          (MediaPlayer.load_file s fp oc aok).1.video_stream = none
      | _ =>
          (MediaPlayer.load_file s fp oc aok).1.container = (MediaPlayer.stop s).container ∧
          (MediaPlayer.load_file s fp oc aok).1.video_stream = s.video_stream) ∧
    (MediaPlayer.load_file (MediaPlayer.load_file s fp oc aok).1 fp2
      (.opened c2) aok2).2 = true := by
  have hsub : ∀ t : PlayerState,
      (MediaPlayer.load_file t fp2 (.opened c2) aok2).2 = true := by
    intro t
    simp [MediaPlayer.load_file, hgood]
  cases oc with
  | notFound =>
    refine ⟨rfl, ?_, ?_, ⟨?_, ?_⟩, hsub _⟩ <;>
      cases hsc : s.container <;>
        simp [MediaPlayer.load_file, MediaPlayer.stop, hsc]
  | openRaises =>
    refine ⟨rfl, ?_, ?_, ⟨?_, ?_⟩, hsub _⟩ <;>
      cases hsc : s.container <;>
        simp [MediaPlayer.load_file, MediaPlayer.stop, hsc]
  | opened c =>
    have hc : selectVideoStream c = none := hfail
    refine ⟨?_, ?_, ?_, ⟨?_, ?_⟩, hsub _⟩ <;>
      cases hsc : s.container <;>
        simp [MediaPlayer.load_file, MediaPlayer.stop, hc, hsc]

/-- Witness for C5 amended at the concrete failing load of the
counterexample, followed by a successful reload of containerA. -/
theorem C5_amended_load_failure_witness :
    (MediaPlayer.load_file playingState "b.m4a" (.opened containerNoVideo) true).2 = false ∧
    (MediaPlayer.load_file playingState "b.m4a" (.opened containerNoVideo) true).1.duration =
      playingState.duration ∧
    (MediaPlayer.load_file playingState "b.m4a" (.opened containerNoVideo) true).1.video_time_base =
      playingState.video_time_base ∧
    ((MediaPlayer.load_file playingState "b.m4a" (.opened containerNoVideo) true).1.container =
      some containerNoVideo ∧
     (MediaPlayer.load_file playingState "b.m4a" (.opened containerNoVideo) true).1.video_stream =
      none) ∧
    (MediaPlayer.load_file
      (MediaPlayer.load_file playingState "b.m4a" (.opened containerNoVideo) true).1
      "a.mp4" (.opened containerA) true).2 = true :=
  C5_amended_load_failure playingState "b.m4a" "a.mp4" true true
    (.opened containerNoVideo) containerA streamA rfl rfl

/-- Witness for C9 at the muted 30 percent state. -/
theorem C9_toggle_mute_involution_witness :
    AudioPlayer.toggle_mute (AudioPlayer.toggle_mute audioMuted30) = audioMuted30 ∧
    (AudioPlayer.toggle_mute audioMuted30).volume = audioMuted30.volume ∧
    (AudioPlayer.toggle_mute (AudioPlayer.toggle_mute audioMuted30)).is_muted =
      audioMuted30.is_muted ∧
    (AudioPlayer.toggle_mute (AudioPlayer.toggle_mute audioMuted30)).gain =
      audioMuted30.gain :=
  C9_toggle_mute_involution audioMuted30
    (by simp [audioMuted30, AudioPlayer.set_muted, AudioPlayer.set_volume,
          AudioPlayer.set_pygame_volume, AudioPlayer.load, AudioPlayer.stop,
          AudioPlayer.initState, effectiveGain])

end SimpleMediaPlayer
